import Mathlib

set_option maxRecDepth 100000

/-!
Verification of the document-element taxonomy
(src/unstructured/documents/elements.py).

The Python module defines an element hierarchy: an abstract `Element`
base with `id` and `coordinates` fields, a `CheckBox` variant, and a
`Text` variant with subclasses (FigureCaption, NarrativeText, ListItem,
Title, Address, Image, PageBreak) distinguished only by a class-level
`category` string.  `Text.__init__` derives a content-addressed id from
a SHA-256 digest when no explicit id is supplied; `__eq__` methods
compare a subset of fields with unchecked attribute access; `apply`
folds a sequence of cleaner functions over the text.

Modelling conventions:
- A Python value that is either a `str` or the `NoID` sentinel is
  modelled as `Option String` (`none` is `NoID`).
- Coordinate lists (`List[float]`) are modelled as `List Rat`; the code
  only stores coordinate lists and compares them for equality.
- A Python runtime exception is modelled as the `PyErr` error of an
  `Except` result: `attributeError a` for an `AttributeError` raised by
  reading a missing attribute `a`, `valueError m` for `ValueError(m)`.
- Values flowing through cleaner functions are modelled by `PyVal`:
  a string, or a representative non-string value.
- SHA-256 (Python `hashlib.sha256`) is implemented in full from
  FIPS 180-4 over byte lists, with bytes and 32-bit words as `Nat`
  reduced modulo 2 ^ 32, and UTF-8 encoding (`str.encode()`) is
  implemented from the codepoint ranges.
-/

/-! ## SHA-256 (FIPS 180-4), as invoked by hashlib.sha256 -/

/-- Reduce a natural number to a 32-bit word. -/
def w32 (n : Nat) : Nat := n % 4294967296

/-- Right rotation of a 32-bit word by k bits. -/
def rotr32 (k x : Nat) : Nat := w32 ((x >>> k) ||| (x <<< (32 - k)))

/-- The Ch function of FIPS 180-4. -/
def shaCh (x y z : Nat) : Nat := (x &&& y) ^^^ ((x ^^^ 4294967295) &&& z)

/-- The Maj function of FIPS 180-4. -/
def shaMaj (x y z : Nat) : Nat := (x &&& y) ^^^ (x &&& z) ^^^ (y &&& z)

/-- The big Sigma-0 function of FIPS 180-4. -/
def bigSigma0 (x : Nat) : Nat := rotr32 2 x ^^^ rotr32 13 x ^^^ rotr32 22 x

/-- The big Sigma-1 function of FIPS 180-4. -/
def bigSigma1 (x : Nat) : Nat := rotr32 6 x ^^^ rotr32 11 x ^^^ rotr32 25 x

/-- The small sigma-0 function of FIPS 180-4. -/
def smallSigma0 (x : Nat) : Nat := rotr32 7 x ^^^ rotr32 18 x ^^^ (x >>> 3)

/-- The small sigma-1 function of FIPS 180-4. -/
def smallSigma1 (x : Nat) : Nat := rotr32 17 x ^^^ rotr32 19 x ^^^ (x >>> 10)

/-- The 64 SHA-256 round constants of FIPS 180-4 (the first 32 bits of
the fractional parts of the cube roots of the first 64 primes), written
in decimal. -/
def K256 : List Nat :=
  [1116352408, 1899447441, 3049323471, 3921009573,
   961987163, 1508970993, 2453635748, 2870763221,
   3624381080, 310598401, 607225278, 1426881987,
   1925078388, 2162078206, 2614888103, 3248222580,
   3835390401, 4022224774, 264347078, 604807628,
   770255983, 1249150122, 1555081692, 1996064986,
   2554220882, 2821834349, 2952996808, 3210313671,
   3336571891, 3584528711, 113926993, 338241895,
   666307205, 773529912, 1294757372, 1396182291,
   1695183700, 1986661051, 2177026350, 2456956037,
   2730485921, 2820302411, 3259730800, 3345764771,
   3516065817, 3600352804, 4094571909, 275423344,
   430227734, 506948616, 659060556, 883997877,
   958139571, 1322822218, 1537002063, 1747873779,
   1955562222, 2024104815, 2227730452, 2361852424,
   2428436474, 2756734187, 3204031479, 3329325298]

/-- The eight 32-bit chaining values of a SHA-256 computation. -/
structure SHAState where
  a : Nat
  b : Nat
  c : Nat
  d : Nat
  e : Nat
  f : Nat
  g : Nat
  h : Nat
deriving Repr, DecidableEq

/-- The SHA-256 initial hash value of FIPS 180-4 (the first 32 bits of
the fractional parts of the square roots of the first 8 primes),
written in decimal. -/
def H0 : SHAState :=
  ⟨1779033703, 3144134277, 1013904242, 2773480762,
   1359893119, 2600822924, 528734635, 1541459225⟩

/-- One round of the SHA-256 compression function. -/
def shaRound (s : SHAState) (k w : Nat) : SHAState :=
  let t1 := w32 (s.h + bigSigma1 s.e + shaCh s.e s.f s.g + k + w)
  let t2 := w32 (bigSigma0 s.a + shaMaj s.a s.b s.c)
  ⟨w32 (t1 + t2), s.a, s.b, s.c, w32 (s.d + t1), s.e, s.f, s.g⟩

/-- Extend a message-schedule prefix by the given number of further words. -/
def expandSchedule (w : Array Nat) : Nat → Array Nat
  | 0 => w
  | k + 1 =>
    let n := w.size
    let next := w32 (smallSigma1 w[n - 2]! + w[n - 7]! + smallSigma0 w[n - 15]! + w[n - 16]!)
    expandSchedule (w.push next) k

/-- Compress one 16-word block into the chaining state. -/
def compressBlock (H : SHAState) (block : List Nat) : SHAState :=
  let sched := (expandSchedule (List.toArray block) 48).toList
  let s := (K256.zip sched).foldl (fun st p => shaRound st p.1 p.2) H
  ⟨w32 (H.a + s.a), w32 (H.b + s.b), w32 (H.c + s.c), w32 (H.d + s.d),
   w32 (H.e + s.e), w32 (H.f + s.f), w32 (H.g + s.g), w32 (H.h + s.h)⟩

/-- Split a word list into its successive 16-word blocks. -/
def chunk16 : List Nat → List (List Nat)
  | w0 :: w1 :: w2 :: w3 :: w4 :: w5 :: w6 :: w7 ::
    w8 :: w9 :: w10 :: w11 :: w12 :: w13 :: w14 :: w15 :: rest =>
    [w0, w1, w2, w3, w4, w5, w6, w7, w8, w9, w10, w11, w12, w13, w14, w15] :: chunk16 rest
  | _ => []

/-- Compress a sequence of 16-word blocks into the chaining state. -/
def processBlocks (H : SHAState) (ws : List Nat) : SHAState :=
  (chunk16 ws).foldl compressBlock H

/-- Big-endian 8-byte encoding of a natural number. -/
def beBytes8 (n : Nat) : List Nat :=
  [(n >>> 56) &&& 255, (n >>> 48) &&& 255, (n >>> 40) &&& 255, (n >>> 32) &&& 255,
   (n >>> 24) &&& 255, (n >>> 16) &&& 255, (n >>> 8) &&& 255, n &&& 255]

/-- SHA-256 padding: append 0x80, zero bytes to 56 mod 64, and the bit length. -/
def sha256pad (msg : List Nat) : List Nat :=
  let len := msg.length
  msg ++ [128] ++ List.replicate ((119 - len % 64) % 64) 0 ++ beBytes8 (len * 8)

/-- Pack a byte list into big-endian 32-bit words. -/
def toWords : List Nat → List Nat
  | b0 :: b1 :: b2 :: b3 :: rest =>
    ((((b0 <<< 8) ||| b1) <<< 8 ||| b2) <<< 8 ||| b3) :: toWords rest
  | _ => []

/-- The SHA-256 digest state of a byte-list message. -/
def sha256 (msg : List Nat) : SHAState :=
  processBlocks H0 (toWords (sha256pad msg))

/-- A lowercase hexadecimal digit. -/
def hexDigitChar (n : Nat) : Char :=
  if n < 10 then Char.ofNat (48 + n) else Char.ofNat (87 + n)

/-- Lowercase hexadecimal rendering of a 32-bit word, 8 digits. -/
def word32Hex (n : Nat) : String :=
  String.mk ((List.range 8).map (fun i => hexDigitChar ((n >>> (28 - 4 * i)) &&& 15)))

/-- Lowercase hex digest of a byte-list message: Python hexdigest(). -/
def sha256Hex (msg : List Nat) : String :=
  let s := sha256 msg
  word32Hex s.a ++ word32Hex s.b ++ word32Hex s.c ++ word32Hex s.d ++
  word32Hex s.e ++ word32Hex s.f ++ word32Hex s.g ++ word32Hex s.h

/-- UTF-8 encoding of one character, as a byte list. -/
def utf8EncodeChar (c : Char) : List Nat :=
  let n := c.toNat
  if n < 128 then [n]
  else if n < 2048 then [192 ||| (n >>> 6), 128 ||| (n &&& 63)]
  else if n < 65536 then
    [224 ||| (n >>> 12), 128 ||| ((n >>> 6) &&& 63), 128 ||| (n &&& 63)]
  else
    [240 ||| (n >>> 18), 128 ||| ((n >>> 12) &&& 63),
     128 ||| ((n >>> 6) &&& 63), 128 ||| (n &&& 63)]

/-- UTF-8 encoding of a string (Python str.encode()), as a byte list. -/
def utf8Encode (s : String) : List Nat :=
  (s.data.map utf8EncodeChar).flatten

/-! ## The element data model -/

/-- The concrete Text subclasses, each fixing a class-level category tag. -/
inductive TextVariant where
  | uncategorized
  | figureCaption
  | narrativeText
  | listItem
  | title
  | address
  | image
  | pageBreak
deriving Repr, DecidableEq

/-- The class-level category string of each Text subclass. -/
def TextVariant.category : TextVariant → String
  | .uncategorized => "Uncategorized"
  | .figureCaption => "FigureCaption"
  | .narrativeText => "NarrativeText"
  | .listItem => "ListItem"
  | .title => "Title"
  | .address => "Address"
  | .image => "Image"
  | .pageBreak => "PageBreak"

/-- State of a constructed Text (or Text-subclass) instance:
fields self.text, self.id, self.coordinates, and the class tag. -/
structure TextEl where
  variant : TextVariant
  id : Option String
  coordinates : Option (List Rat)
  text : String
deriving Repr, DecidableEq

/-- State of a constructed CheckBox instance: fields self.id,
self.coordinates, self.checked. -/
structure CheckBoxEl where
  id : Option String
  coordinates : Option (List Rat)
  checked : Bool
deriving Repr, DecidableEq

/-- Any element instance of the module. -/
inductive PyElement where
  | text (e : TextEl)
  | checkBox (e : CheckBoxEl)
deriving Repr, DecidableEq

/-- Python exceptions raised by the modelled methods. -/
inductive PyErr where
  | attributeError (attr : String)
  | valueError (msg : String)
deriving Repr, DecidableEq

/-- Reading the text attribute: present only on Text instances. -/
def PyElement.textAttr : PyElement → Option String
  | .text e => some e.text
  | .checkBox _ => none

/-- Reading the checked attribute: present only on CheckBox instances. -/
def PyElement.checkedAttr : PyElement → Option Bool
  | .text _ => none
  | .checkBox e => some e.checked

/-- Reading the category attribute: a class attribute of Text and its
subclasses; CheckBox and Element define none. -/
def PyElement.categoryAttr : PyElement → Option String
  | .text e => some e.variant.category
  | .checkBox _ => none

/-- Reading the coordinates attribute: present on every element. -/
def PyElement.coordinatesAttr : PyElement → Option (List Rat)
  | .text e => e.coordinates
  | .checkBox e => e.coordinates

/-! ## Constructors -/

/-- CheckBox.__init__: stores element_id, coordinates and checked. -/
def CheckBox.init (element_id : Option String) (coordinates : Option (List Rat))
    (checked : Bool) : CheckBoxEl :=
  { id := element_id, coordinates := coordinates, checked := checked }

/-- Text.__init__ as inherited by every Text subclass: stores text; when
element_id is the NoID sentinel, replaces it by the first 32 hex digits
of the SHA-256 digest of the UTF-8 encoding of text; then calls
Element.__init__ with element_id only, so the coordinates argument is
not forwarded and self.coordinates is set to the default None. -/
def Text.init (variant : TextVariant) (text : String) (element_id : Option String)
    (coordinates : Option (List Rat)) : TextEl :=
  let eid : String :=
    match element_id with
    | some s => s
    | none => (sha256Hex (utf8Encode text)).take 32
  { variant := variant, id := some eid, coordinates := none, text := text }

/-- PageBreak.__init__: takes no arguments and calls the Text
constructor with the fixed sentinel text. -/
def PageBreak.init : TextEl :=
  Text.init .pageBreak "<PAGE BREAK>" none none

/-! ## Equality methods -/

/-- CheckBox.__eq__: (self.checked == other.checked) and
(self.coordinates) == (other.coordinates).  Reading other.checked
raises AttributeError when other is not a CheckBox. -/
def CheckBox.eqMethod (self : CheckBoxEl) (other : PyElement) : Except PyErr Bool :=
  match other.checkedAttr with
  | none => .error (.attributeError "checked")
  | some c =>
    .ok (decide (self.checked = c) && decide (self.coordinates = other.coordinatesAttr))

/-- Text.__eq__: all of [self.text == other.text,
self.coordinates == other.coordinates, self.category == other.category].
Reading other.text (and other.category) raises AttributeError when
other is not a Text instance. -/
def Text.eqMethod (self : TextEl) (other : PyElement) : Except PyErr Bool :=
  match other.textAttr with
  | none => .error (.attributeError "text")
  | some t =>
    match other.categoryAttr with
    | none => .error (.attributeError "category")
    | some cat =>
      .ok (decide (self.text = t) && decide (self.coordinates = other.coordinatesAttr)
        && decide (self.variant.category = cat))

/-- Python equality dispatch for a == b: the __eq__ method of the class
of the left operand is invoked (neither method returns NotImplemented,
so no reflected call occurs). -/
def pyEq : PyElement → PyElement → Except PyErr Bool
  | .text s, o => Text.eqMethod s o
  | .checkBox s, o => CheckBox.eqMethod s o

/-! ## The cleaning pipeline -/

/-- A Python value passed through cleaner functions: a str, or a
representative non-string value. -/
inductive PyVal where
  | str (s : String)
  | intVal (n : Int)
deriving Repr, DecidableEq

/-- The loop of Text.apply: fold the cleaners left to right over the
running value, each cleaner consuming the previous result. -/
def foldCleaners (cleaners : List (PyVal → PyVal)) (v : PyVal) : PyVal :=
  cleaners.foldl (fun acc c => c acc) v

/-- Text.apply(*cleaners): runs every cleaner in order on a local
variable starting from self.text; after the loop, if the final value is
not a str, raises ValueError and leaves self.text untouched; otherwise
stores the final value into self.text.  The result pairs the raised
exception or unit with the element state after the call. -/
def TextEl.apply (e : TextEl) (cleaners : List (PyVal → PyVal)) :
    Except PyErr Unit × TextEl :=
  match foldCleaners cleaners (PyVal.str e.text) with
  | .str s => (.ok (), { e with text := s })
  | _ => (.error (.valueError "Cleaner produced a non-string output."), e)

/-- The lift of a string-to-string cleaner to the value domain. -/
def liftCleaner (f : String → String) : PyVal → PyVal
  | .str s => .str (f s)
  | v => v

/-! ## Concrete fixtures used by counterexamples and witnesses -/

/-- A CheckBox constructed with all defaults: CheckBox(). -/
def cbDefault : CheckBoxEl := CheckBox.init none none false

/-- A Text element: Text("hello"). -/
def tHello : TextEl := Text.init .uncategorized "hello" none none

/-- A Text element with explicit id: Text("abc", element_id="eid"). -/
def eAbc : TextEl := Text.init .uncategorized "abc" (some "eid") none

/-- A cleaner that returns the non-string value 0 on every input. -/
def cleanerToInt : PyVal → PyVal := fun _ => PyVal.intVal 0

/-- A cleaner that maps any integer input to the string "recovered" and
leaves any other input unchanged. -/
def cleanerRecover : PyVal → PyVal
  | .intVal _ => .str "recovered"
  | v => v

/-- A cleaner that returns the string "X" on every input. -/
def cleanerConstX : PyVal → PyVal := fun _ => PyVal.str "X"

/-! ## Sanity anchors for the SHA-256 and UTF-8 embedding -/

/-- FIPS 180-4 test vector: the digest of "abc". -/
theorem sha256Hex_vector_abc :
    sha256Hex (utf8Encode "abc")
      = "ba7816bf8f01cfea414140de5dae2223b00361a396177a9cb410ff61f20015ad" := by
  decide

/-- Digest of the empty message. -/
theorem sha256Hex_vector_empty :
    sha256Hex (utf8Encode "")
      = "e3b0c44298fc1c149afbf4c8996fb92427ae41e4649b934ca495991b7852b855" := by
  decide

/-- The derived id of NarrativeText("Hello world") is the first 32 hex
digits of the SHA-256 digest of "Hello world" (the scenario of the
spec). -/
theorem textId_helloWorld :
    (Text.init .narrativeText "Hello world" none none).id
      = some "64ec88ca00b268e5ba1a35678a1b5316" := by
  decide

/-! ## Helper lemmas -/

/-- Folding lifted string-to-string cleaners over a string value stays
in the string constructor and folds the underlying functions. -/
theorem foldCleaners_liftCleaner (fs : List (String → String)) (s : String) :
    foldCleaners (fs.map liftCleaner) (PyVal.str s)
      = PyVal.str (fs.foldl (fun a f => f a) s) := by
  induction fs generalizing s with
  | nil => rfl
  | cons f fs ih =>
    simp only [List.map_cons, foldCleaners, List.foldl_cons] at *
    exact ih (f s)

/-- Applying lifted string-to-string cleaners succeeds and replaces the
text by the fold of the cleaners. -/
theorem apply_liftCleaner (e : TextEl) (fs : List (String → String)) :
    e.apply (fs.map liftCleaner)
      = (Except.ok (), { e with text := fs.foldl (fun s f => f s) e.text }) := by
  unfold TextEl.apply
  rw [foldCleaners_liftCleaner]

/-! ## The claims -/

/-- Claim C1: constructing a text-bearing element (any variant) with no
explicit identity yields an id equal to the first 32 lowercase hex
characters of the SHA-256 digest of the UTF-8 encoding of the text, and
two such constructions from the same text derive the same id. -/
theorem claim_C1 (t : String) (v1 v2 : TextVariant) (c1 c2 : Option (List Rat)) :
    (Text.init v1 t none c1).id = some ((sha256Hex (utf8Encode t)).take 32) ∧
    (Text.init v1 t none c1).id = (Text.init v2 t none c2).id :=
  ⟨rfl, rfl⟩

/-- Claim C2 evaluation (code bug): comparing a CheckBox with a Text
element, in either direction, raises AttributeError instead of
returning not-equal: CheckBox.__eq__ reads other.checked and
Text.__eq__ reads other.text, attributes the other variant lacks. -/
theorem claim_C2_code_bug_eval :
    pyEq (PyElement.checkBox cbDefault) (PyElement.text tHello)
      = Except.error (PyErr.attributeError "checked") ∧
    pyEq (PyElement.text tHello) (PyElement.checkBox cbDefault)
      = Except.error (PyErr.attributeError "text") :=
  ⟨rfl, rfl⟩

/-- Claim C3 counterexample: with cleaners [cleanerToInt,
cleanerRecover], the first cleaner returns a non-string on its actual
input, yet apply raises no error, the second cleaner runs (its output
becomes the text), so the pipeline is not aborted; and with cleaners
[cleanerConstX, cleanerToInt] the error is raised but the text is left
at the original "abc", not at the last successfully produced
intermediate value "X". -/
theorem claim_C3_counterexample :
    cleanerToInt (PyVal.str "abc") = PyVal.intVal 0 ∧
    eAbc.text = "abc" ∧
    TextEl.apply eAbc [cleanerToInt, cleanerRecover]
      = (Except.ok (), { eAbc with text := "recovered" }) ∧
    cleanerConstX (PyVal.str "abc") = PyVal.str "X" ∧
    TextEl.apply eAbc [cleanerConstX, cleanerToInt]
      = (Except.error (PyErr.valueError "Cleaner produced a non-string output."), eAbc) :=
  ⟨rfl, rfl, rfl, rfl, rfl⟩

/-- Claim C3 amended: apply folds all cleaners to the end; if the final
folded value is a string it is stored, and only if the final value is a
non-string does apply raise ValueError, in which case the element text
remains the original pre-apply text. -/
theorem claim_C3_amended (e : TextEl) (cs : List (PyVal → PyVal)) :
    (∀ s, foldCleaners cs (PyVal.str e.text) = PyVal.str s →
      e.apply cs = (Except.ok (), { e with text := s })) ∧
    ((∀ s, foldCleaners cs (PyVal.str e.text) ≠ PyVal.str s) →
      e.apply cs = (Except.error (PyErr.valueError "Cleaner produced a non-string output."), e)) := by
  constructor
  · intro s hs
    unfold TextEl.apply
    rw [hs]
  · intro h
    unfold TextEl.apply
    cases hfc : foldCleaners cs (PyVal.str e.text) with
    | str s => exact absurd hfc (h s)
    | intVal n => rfl

/-- Claim C3 amended, witness at concrete inputs. -/
theorem claim_C3_amended_witness :
    TextEl.apply eAbc [cleanerConstX] = (Except.ok (), { eAbc with text := "X" }) ∧
    TextEl.apply eAbc [cleanerToInt]
      = (Except.error (PyErr.valueError "Cleaner produced a non-string output."), eAbc) :=
  ⟨(claim_C3_amended eAbc [cleanerConstX]).1 "X" rfl,
   (claim_C3_amended eAbc [cleanerToInt]).2 (fun s h => nomatch h)⟩

/-- Claim C4: applying a sequence of string-to-string cleaners replaces
the text by the left-to-right fold of the cleaners over the current
text, leaves id, variant (hence category) and coordinates untouched,
and the empty sequence leaves the element unchanged. -/
theorem claim_C4 (e : TextEl) (fs : List (String → String)) :
    (e.apply (fs.map liftCleaner)).2.text = fs.foldl (fun s f => f s) e.text ∧
    (e.apply (fs.map liftCleaner)).2.id = e.id ∧
    (e.apply (fs.map liftCleaner)).2.variant = e.variant ∧
    (e.apply (fs.map liftCleaner)).2.coordinates = e.coordinates ∧
    e.apply [] = (Except.ok (), e) := by
  rw [apply_liftCleaner]
  exact ⟨rfl, rfl, rfl, rfl, rfl⟩

/-- Claim C5: two text-bearing elements, of any variants, compare equal
exactly when text, coordinates and category all agree; the comparison
is reflexive and symmetric; identity is ignored, so elements built from
the same text, variant and coordinates but different explicit ids
compare equal. -/
theorem claim_C5 (a b : TextEl) :
    (pyEq (PyElement.text a) (PyElement.text b) = Except.ok true ↔
      (a.text = b.text ∧ a.coordinates = b.coordinates ∧
        a.variant.category = b.variant.category)) ∧
    pyEq (PyElement.text a) (PyElement.text a) = Except.ok true ∧
    pyEq (PyElement.text a) (PyElement.text b)
      = pyEq (PyElement.text b) (PyElement.text a) ∧
    (∀ (v : TextVariant) (t s1 s2 : String) (c : Option (List Rat)),
      pyEq (PyElement.text (Text.init v t (some s1) c))
        (PyElement.text (Text.init v t (some s2) c)) = Except.ok true) := by
  refine ⟨?_, ?_, ?_, ?_⟩
  · simp [pyEq, Text.eqMethod, PyElement.textAttr, PyElement.categoryAttr,
      PyElement.coordinatesAttr, and_assoc]
  · simp [pyEq, Text.eqMethod, PyElement.textAttr, PyElement.categoryAttr,
      PyElement.coordinatesAttr]
  · simp only [pyEq, Text.eqMethod, PyElement.textAttr, PyElement.categoryAttr,
      PyElement.coordinatesAttr]
    rw [decide_eq_decide.mpr (eq_comm (a := a.text)),
      decide_eq_decide.mpr (eq_comm (a := a.coordinates)),
      decide_eq_decide.mpr (eq_comm (a := a.variant.category))]
  · intro v t s1 s2 c
    simp [pyEq, Text.eqMethod, PyElement.textAttr, PyElement.categoryAttr,
      PyElement.coordinatesAttr, Text.init]

/-- Claim C6: two CheckBox elements compare equal exactly when checked
and coordinates agree; the id fields do not enter the comparison. -/
theorem claim_C6 (a b : CheckBoxEl) :
    pyEq (PyElement.checkBox a) (PyElement.checkBox b) = Except.ok true ↔
      (a.checked = b.checked ∧ a.coordinates = b.coordinates) := by
  simp [pyEq, CheckBox.eqMethod, PyElement.checkedAttr, PyElement.coordinatesAttr]

/-- Claim C7: whatever coordinates are passed to the Text constructor,
the constructed element has coordinates None, because Text.__init__
calls Element.__init__ with element_id only. -/
theorem claim_C7 (v : TextVariant) (t : String) (eid : Option String)
    (c : Option (List Rat)) :
    (Text.init v t eid c).coordinates = none :=
  rfl

/-- Claim C8: PageBreak() always carries the sentinel text and the
PageBreak category; its constructor takes no text argument. -/
theorem claim_C8 :
    PageBreak.init.text = "<PAGE BREAK>" ∧
    PageBreak.init.variant.category = "PageBreak" :=
  ⟨rfl, rfl⟩

/-- Claim C9: an explicitly supplied identity string is stored verbatim
as the id, for every text and variant; no hashing occurs. -/
theorem claim_C9 (v : TextVariant) (t s : String) (c : Option (List Rat)) :
    (Text.init v t (some s) c).id = some s :=
  rfl

/-- Claim C10: for string-to-string cleaners f and g, apply([f, g])
yields the same final text as apply([f]) followed by apply([g]). -/
theorem claim_C10 (e : TextEl) (f g : String → String) :
    (e.apply [liftCleaner f, liftCleaner g]).2.text
      = ((e.apply [liftCleaner f]).2.apply [liftCleaner g]).2.text :=
  rfl
